import Mathlib

/-!
Verification of the interview-practice app (src/app.py) against its design
specification.  The reusable logic of the program is shallowly embedded:

* Python string helpers (`str.strip`, `str.lower`, no-argument `str.split`,
  `str.replace(",", " ")`) are modelled over ASCII whitespace as structurally
  recursive Lean functions;
* the session record kept in `st.session_state` becomes the `Session`
  structure;
* each UI event handler (setup-wizard chat submission, the Start Interview
  button, the Submit Answer form) becomes a pure function from the session
  and the event payload to the new session plus the list of outbound model
  requests it made;
* the external model service is an oracle parameter `List Msg → String`
  mapping a request (the ordered role-tagged messages) to the reply text.
-/

namespace InterviewApp

/-- ASCII whitespace as recognised by Python `str.strip` and no-argument
`str.split` (space, tab, newline, vertical tab, form feed, carriage return). -/
def pyIsSpace (c : Char) : Bool :=
  c = ' ' || c = '\t' || c = '\n' || c = '\x0b' || c = '\x0c' || c = '\r'

/-- Python `str.strip()`: remove leading and trailing whitespace. -/
def pyStrip (s : String) : String :=
  String.mk (((s.toList.dropWhile pyIsSpace).reverse.dropWhile pyIsSpace).reverse)

/-- Python `str.lower()` (ASCII letters). -/
def pyLower (s : String) : String :=
  String.mk (s.toList.map Char.toLower)

/-- Python `text.replace(",", " ")`: the pattern is a single character, so the
replacement is a character-wise map. -/
def replaceCommas (s : String) : String :=
  String.mk (s.toList.map (fun c => if c = ',' then ' ' else c))

/-- Helper for Python no-argument `str.split`: walk the characters keeping an
accumulator of the current word (reversed); whitespace closes a word, and
empty words are never produced. -/
def pySplitAux : List Char → List Char → List String
  | [], [] => []
  | [], acc => [String.mk acc.reverse]
  | c :: cs, acc =>
    if pyIsSpace c then
      match acc with
      | [] => pySplitAux cs []
      | _ :: _ => String.mk acc.reverse :: pySplitAux cs []
    else
      pySplitAux cs (c :: acc)

/-- Python no-argument `str.split()`: split on runs of whitespace, no empty
tokens. -/
def pySplit (s : String) : List String :=
  pySplitAux s.toList []

/-- Tokenisation used by the parser: `text.replace(",", " ").split()`
(app.py line 142). -/
def pyWords (text : String) : List String :=
  pySplit (replaceCommas text)

/-- The six CEFR codes, in the fixed scan order of the source loop
(app.py line 147). -/
def cefrLevels : List String := ["A1", "A2", "B1", "B2", "C1", "C2"]

/-- The `for lv in [...]` loop with `break` of app.py lines 147-150: return
the first code whose lowercase form occurs among the lowered words, else the
empty string. -/
def findLevelLoop : List String → List String → String
  | [], _ => ""
  | lv :: rest, words_lower =>
    if words_lower.contains (pyLower lv) then lv else findLevelLoop rest words_lower

/-- Translation of `parse_setup_answer` (app.py lines 127-160). -/
def parse_setup_answer (text : String) : String × String × String :=
  let words := pyWords text
  let words_lower := words.map pyLower
  let level := findLevelLoop cefrLevels words_lower
  let interview_language := words.headD ("")
  let explain_language :=
    if words_lower.contains ("yes") ∧ 2 ≤ words.length then words.getLastD ("") else ""
  (interview_language, level, explain_language)

/-- Modelled from the spec wording of the Preference Parser algorithm
(spec section 4.2), for comparison with the source translation: tokenize on
whitespace after replacing commas with spaces; the level is the first code in
the fixed order A1,A2,B1,B2,C1,C2 that case-insensitively matches some token
(empty if none); the interview language is the first token verbatim (empty if
no tokens); the explanation language is the last token verbatim if and only
if some token case-insensitively equals yes and there are at least two
tokens (else empty). -/
def parse_setup_answer_specModel (text : String) : String × String × String :=
  let toks := pyWords text
  let level :=
    (cefrLevels.find? (fun lv => toks.any (fun t => pyLower t == pyLower lv))).getD ("")
  let il := match toks with | [] => "" | w :: _ => w
  let el :=
    if (toks.any (fun t => pyLower t == "yes")) ∧ 2 ≤ toks.length then
      toks.getLastD ("")
    else ""
  (il, level, el)

/-- One completed round of the transcript: an item of
`st.session_state.history` (app.py line 459, keys q / a / feedback). -/
structure Round where
  q : String
  a : String
  feedback : String
deriving DecidableEq, Repr

/-- One chat bubble of the setup transcript `st.session_state.setup_chat`
(app.py lines 116-119). -/
structure ChatMsg where
  role : String
  content : String
deriving DecidableEq, Repr

/-- One role-tagged message of an outbound model request
(app.py `messages=[...]` arguments). -/
structure Msg where
  role : String
  content : String
deriving DecidableEq, Repr

/-- The per-session mutable record kept in `st.session_state`
(app.py lines 81-119).  `company_website` is `none` until the optional
step-3 write happens (the Python attribute does not exist before then). -/
structure Session where
  started : Bool
  job : String
  question : String
  history : List Round
  interview_language : String
  language_level : String
  explain_language : String
  setup_step : Nat
  setup_chat : List ChatMsg
  company_website : Option String
deriving DecidableEq, Repr

/-- The session as initialised on first load (app.py lines 81-119). -/
def initSession : Session :=
  { started := false
    job := ""
    question := ""
    history := []
    interview_language := ""
    language_level := ""
    explain_language := ""
    setup_step := 0
    setup_chat := []
    company_website := none }

/-- Python string `or` with a default: `value or "default"` is the default
exactly when the value is the empty string. -/
def pyOrDefault (v d : String) : String :=
  if v = "" then d else v

/-- The fixed preference block template: the text produced once the three
fields have been defaulted to the literal `not set`. -/
def contextTemplate (il lv el : String) : String :=
  "SETUP (saved preferences):\n" ++
  "- Interview language: " ++ il ++ "\n" ++
  "- Language level: " ++ lv ++ "\n" ++
  "- Explanation language: " ++ el ++ "\n" ++
  "\n" ++
  "IMPORTANT RULE:\n" ++
  "- Ask interview questions ONLY in the interview language.\n" ++
  "- Keep vocabulary/sentences at the language level.\n" ++
  "- If explanation language is set, explanations should be in that language.\n"

/-- Translation of `build_language_context` (app.py lines 162-185): reads the
three preference fields from the session, defaulting each empty field to
`not set`. -/
def build_language_context (s : Session) : String :=
  contextTemplate
    (pyOrDefault s.interview_language ("not set"))
    (pyOrDefault s.language_level ("not set"))
    (pyOrDefault s.explain_language ("not set"))

/-- The system instruction of `generate_first_question` (app.py lines
197-238), byte-exact including the indentation of the Python triple-quoted
string, the trailing space after `question` and the trailing indent before
the closing quotes. -/
def firstQuestionSystem : String :=
  String.intercalate ("\n")
    [ ""
    , "                You are an interview coach for job interviews in ANY language."
    , ""
    , "                Your goal: help the candidate succeed in a real interview."
    , ""
    , "                STEP 0 — Setup questions (ask these first, before any interview questions):"
    , "                1) Ask which language the interview will be conducted in."
    , "                2) Ask the Users language level (A2/B1/B2/C1)."
    , "                3) Ask whether the user wants explanations in a second language (mother tongue)."
    , ""
    , "                STEP 1 — Job & company context:"
    , "                4) Ask for the company website URL and the job description text."
    , "                5) Analyze the job description into clear categories."
    , "                6) Propose number of questions per category."
    , "                7) Ask which category to start with."
    , ""
    , "                Interview coaching behavior:"
    , "                - Be realistic and job-specific."
    , "                - Keep tone warm and confidence-building."
    , "                - Increase difficulty gradually."
    , "                - Prefer concrete examples."
    , "                - Never shame the user."
    , ""
    , "                Answer correction rule:"
    , "                - Rewrite answer correctly."
    , "                - Provide stronger interview-ready version."
    , "                - Give max 3 coaching tips."
    , ""
    , "                Translation rule:"
    , "                - Translate only when requested."
    , "                - Keep translations short."
    , ""
    , "                Output format:"
    , "                - Always start with \"Q:\" (question) and end with \"A:\" (answer)."
    , "                - Always include the question number (e.g., \"Q1:\") and category (e.g., \"Job context:\")."
    , "                - Always end with a coaching tip (max 3)."
    , "                - Always include the translation to mother tongue if requested."
    , ""
    , ""
    , "                Ask ONE short interview question "
    , "                    based on the job description."
    , "                " ]

/-- The request built by `generate_first_question` (app.py lines 192-248):
user content is the f-string interpolating the language context and the job
description.  The sampling temperature (0.7) is not part of the message
payload and is omitted from the embedding. -/
def firstQuestionRequest (s : Session) (job_description : String) : List Msg :=
  [ ⟨"system", firstQuestionSystem⟩
  , ⟨"user", build_language_context s
      ++ ("\n            JOB DESCRIPTION:\n            " ++ job_description ++ "\n            ")⟩ ]

/-- The system instruction of `generate_feedback` (app.py lines 262-264). -/
def feedbackSystem : String :=
  "You are an interview coach. Give short, practical feedback on the user\x27s answer (2-4 bullet points)."

/-- The request built by `generate_feedback` (app.py lines 257-278);
temperature 0.4 omitted as above. -/
def feedbackRequest (s : Session) (job_description question answer : String) : List Msg :=
  [ ⟨"system", feedbackSystem⟩
  , ⟨"user", build_language_context s
      ++ ("\n\n" ++ "Job description:\n" ++ job_description ++ "\n\n"
          ++ "Question:\n" ++ question ++ "\n\n"
          ++ "Answer:\n" ++ answer)⟩ ]

/-- The system instruction of `generate_next_question` (app.py lines
294-296). -/
def nextQuestionSystem : String :=
  "You are an interview coach. Ask the NEXT short interview question. Use the job description and what has been asked already. Avoid repeating."

/-- Rendering of the asked-questions list (app.py line 287): a bulleted list
joined by newlines, or the literal marker `(none)` when the list is empty
(Python truthiness of a list). -/
def askedBlock (asked_questions : List String) : String :=
  match asked_questions with
  | [] => "(none)"
  | _ :: _ => String.intercalate ("\n") (asked_questions.map (fun q => "- " ++ q))

/-- The request built by `generate_next_question` (app.py lines 282-310);
temperature 0.7 omitted as above. -/
def nextQuestionRequest (s : Session) (job_description : String)
    (asked_questions : List String) : List Msg :=
  [ ⟨"system", nextQuestionSystem⟩
  , ⟨"user", build_language_context s
      ++ ("\n\n" ++ "Job description:\n" ++ job_description ++ "\n\n"
          ++ "Asked so far:\n" ++ askedBlock asked_questions)⟩ ]

/-- The model service as an oracle: a reply for every request. -/
def Oracle := List Msg → String

/-- `generate_first_question` (app.py lines 188-250): send the request and
strip the reply. -/
def generate_first_question (oracle : Oracle) (s : Session) (job_description : String) : String :=
  pyStrip (oracle (firstQuestionRequest s job_description))

/-- `generate_feedback` (app.py lines 253-279). -/
def generate_feedback (oracle : Oracle) (s : Session)
    (job_description question answer : String) : String :=
  pyStrip (oracle (feedbackRequest s job_description question answer))

/-- `generate_next_question` (app.py lines 282-310). -/
def generate_next_question (oracle : Oracle) (s : Session)
    (job_description : String) (asked_questions : List String) : String :=
  pyStrip (oracle (nextQuestionRequest s job_description asked_questions))

/-- One submission event of the setup wizard (app.py lines 344-381).  The
payload is the value of `st.chat_input`; the empty string stands for the
falsy no-input case (`if user_setup_input:`), so an empty submission causes
no transition.  The idempotent re-display of the pending assistant prompt
(app.py lines 346-349) is render-side and is not part of this transition.
While `setup_step < 4` and the input is truthy: append the user message to
the setup chat, record the stripped input into the field selected by the
current step (step 2 stores empty when the stripped lowered input is `no`;
step 3 skips the write when it is `skip`), then increment `setup_step`.
At `setup_step = 4` the chat input is not rendered, so nothing happens. -/
def submitSetup (s : Session) (user_setup_input : String) : Session :=
  if s.setup_step < 4 then
    if user_setup_input ≠ "" then
      let s0 := { s with setup_chat := s.setup_chat ++ [ChatMsg.mk ("user") user_setup_input] }
      let s1 :=
        if s0.setup_step = 0 then
          { s0 with interview_language := pyStrip user_setup_input }
        else if s0.setup_step = 1 then
          { s0 with language_level := pyStrip user_setup_input }
        else if s0.setup_step = 2 then
          if pyLower (pyStrip user_setup_input) ≠ "no" then
            { s0 with explain_language := pyStrip user_setup_input }
          else
            { s0 with explain_language := "" }
        else if s0.setup_step = 3 then
          if pyLower (pyStrip user_setup_input) ≠ "skip" then
            { s0 with company_website := some (pyStrip user_setup_input) }
          else s0
        else s0
      { s1 with setup_step := s1.setup_step + 1 }
    else s
  else s

/-- A whole sequence of setup submissions, in order. -/
def runSetup (s : Session) (inputs : List String) : Session :=
  inputs.foldl submitSetup s

/-- Result of one button or form event: the new session, whether a
validation error was reported to the user, and the outbound model requests
made while handling the event, in order. -/
structure HandlerResult where
  session : Session
  errored : Bool
  requests : List (List Msg)
deriving Repr

/-- The Start Interview button handler (app.py lines 400-406): an empty or
whitespace-only job description reports an error and changes nothing;
otherwise mark the interview started, store the job description, and store
the generated (stripped) first question. -/
def startInterview (oracle : Oracle) (s : Session) (job_description : String) : HandlerResult :=
  if (pyStrip job_description).length = 0 then
    ⟨s, true, []⟩
  else
    ⟨{ s with
        started := true
        job := job_description
        question := generate_first_question oracle s job_description }
    , false
    , [firstQuestionRequest s job_description] ⟩

/-- The body of the lazy preference fallback (app.py lines 442-449): parse
the submitted answer and write each component into its session field only
when that parsed component is non-empty. -/
def applyParsedPrefs (s : Session) (answer : String) : Session :=
  let p := parse_setup_answer answer
  let s1 := if p.1 ≠ "" then { s with interview_language := p.1 } else s
  let s2 := if p.2.1 ≠ "" then { s1 with language_level := p.2.1 } else s1
  if p.2.2 ≠ "" then { s2 with explain_language := p.2.2 } else s2

/-- The guard of the lazy preference fallback (app.py line 441): the parse
runs only when `interview_language` is still empty. -/
def fallbackPrefs (s : Session) (answer : String) : Session :=
  if s.interview_language = "" then applyParsedPrefs s answer else s

/-- The Submit Answer form handler (app.py lines 435-469): an empty or
whitespace-only answer reports an error and changes nothing; otherwise run
the lazy preference fallback, generate feedback, append the completed round
to the history, and generate (and store) the next question from the
questions of the updated history. -/
def submitAnswer (oracle : Oracle) (s : Session) (user_answer : String) : HandlerResult :=
  if (pyStrip user_answer).length = 0 then
    ⟨s, true, []⟩
  else
    let s1 := fallbackPrefs s user_answer
    let feedback := generate_feedback oracle s1 s1.job s1.question user_answer
    let s2 := { s1 with history := s1.history ++ [⟨s1.question, user_answer, feedback⟩] }
    let asked_questions := s2.history.map Round.q
    let nq := generate_next_question oracle s2 s2.job asked_questions
    ⟨{ s2 with question := nq }
    , false
    , [ feedbackRequest s1 s1.job s1.question user_answer
      , nextQuestionRequest s2 s2.job asked_questions ] ⟩

/-- Equality of two sessions on every field except `company_website`: the
low-equivalence relation used to state that the stored company website has no
observable downstream effect. -/
def agreeExceptWebsite (s t : Session) : Prop :=
  s.started = t.started ∧ s.job = t.job ∧ s.question = t.question
  ∧ s.history = t.history ∧ s.interview_language = t.interview_language
  ∧ s.language_level = t.language_level ∧ s.explain_language = t.explain_language
  ∧ s.setup_step = t.setup_step ∧ s.setup_chat = t.setup_chat

/-! Helper lemmas shared by the claim theorems. -/

/-- A string with a non-empty strip has non-zero length after stripping. -/
lemma pyStrip_length_ne (s : String) (h : pyStrip s ≠ "") : (pyStrip s).length ≠ 0 := by
  intro hl
  exact h (by cases hs : pyStrip s with | mk data => cases data with
    | nil => rfl
    | cons c cs => rw [hs] at hl; simp [String.length] at hl)

/-- The setup step after one submission: incremented exactly when the step is
below 4 and the input is truthy, unchanged otherwise. -/
lemma submitSetup_setup_step (s : Session) (i : String) :
    (submitSetup s i).setup_step =
      if s.setup_step < 4 ∧ i ≠ "" then s.setup_step + 1 else s.setup_step := by
  unfold submitSetup
  split_ifs <;> simp_all <;> split_ifs <;> simp_all

/-- Along any sequence of submissions, the setup step stays at most 4. -/
lemma runSetup_step_le (inputs : List String) :
    ∀ s : Session, s.setup_step ≤ 4 → (runSetup s inputs).setup_step ≤ 4 := by
  induction inputs with
  | nil => intro s h; exact h
  | cons i is ih =>
      intro s h
      have hstep := submitSetup_setup_step s i
      have : (submitSetup s i).setup_step ≤ 4 := by
        rw [hstep]; split_ifs with hc
        · omega
        · exact h
      exact ih _ this

/-- Along any sequence of submissions, the setup step never decreases. -/
lemma runSetup_step_mono (inputs : List String) :
    ∀ s : Session, s.setup_step ≤ (runSetup s inputs).setup_step := by
  induction inputs with
  | nil => intro s; exact Nat.le_refl _
  | cons i is ih =>
      intro s
      have hstep := submitSetup_setup_step s i
      have h1 : s.setup_step ≤ (submitSetup s i).setup_step := by
        rw [hstep]; split_ifs <;> omega
      exact Nat.le_trans h1 (ih _)

/-- The preference fallback never changes the stored job description. -/
lemma fallbackPrefs_job (s : Session) (a : String) : (fallbackPrefs s a).job = s.job := by
  simp only [fallbackPrefs, applyParsedPrefs]; split_ifs <;> rfl

/-- The preference fallback never changes the current question. -/
lemma fallbackPrefs_question (s : Session) (a : String) :
    (fallbackPrefs s a).question = s.question := by
  simp only [fallbackPrefs, applyParsedPrefs]; split_ifs <;> rfl

/-- The preference fallback never changes the history. -/
lemma fallbackPrefs_history (s : Session) (a : String) :
    (fallbackPrefs s a).history = s.history := by
  simp only [fallbackPrefs, applyParsedPrefs]; split_ifs <;> rfl

/-- Membership of `x` in the lowered tokens is the existence of a token whose
lowering is `x`. -/
lemma contains_map_eq_any (toks : List String) (x : String) :
    (toks.map pyLower).contains x = toks.any (fun t => pyLower t == x) := by
  induction toks with
  | nil => rfl
  | cons t ts ih =>
      rw [List.map_cons, List.contains_cons, List.any_cons, ih]
      congr 1
      rw [Bool.eq_iff_iff]
      simp only [beq_iff_eq]
      exact eq_comm

/-- The break-on-first-match loop over the code list, run on the lowered
tokens, agrees with a first-match search over the original tokens. -/
lemma findLevelLoop_eq_find (lvs toks : List String) :
    findLevelLoop lvs (toks.map pyLower)
      = (lvs.find? (fun lv => toks.any (fun t => pyLower t == pyLower lv))).getD ("") := by
  induction lvs with
  | nil => rfl
  | cons lv rest ih =>
      rw [findLevelLoop, contains_map_eq_any]
      by_cases h : toks.any (fun t => pyLower t == pyLower lv) <;>
        simp [List.find?_cons, h, ih]

/-! Claim theorems. -/

/-- Claim C1, counterexample.  The claim says every preference field, once
non-empty, is protected from the lazy fallback.  In the code the fallback is
guarded only by `interview_language` being empty (app.py line 441): in a
session whose step-0 answer was a single space (truthy in Python but stripped
to empty), `language_level` is set to B2 during setup, yet the first
submitted answer, parsed by the fallback, overwrites it with A1. -/
theorem c1_lazy_fallback_counterexample :
    (runSetup initSession [" ", "B2", "no", "skip"]).language_level = "B2"
  ∧ (runSetup initSession [" ", "B2", "no", "skip"]).interview_language = ""
  ∧ (submitAnswer (fun _ => "ok")
      (startInterview (fun _ => "Q0")
        (runSetup initSession [" ", "B2", "no", "skip"]) ("dev")).session
      ("German A1 yes French")).session.language_level = "A1" :=
  ⟨rfl, rfl, rfl⟩

/-- Claim C1, amended.  The fallback is guarded solely by
`interview_language`: whenever `interview_language` is non-empty at the time
an answer is submitted, the fallback is skipped entirely and none of the
three preference fields changes.  (When `interview_language` is empty the
fallback may overwrite an already-set `language_level` or `explain_language`,
as the counterexample shows.) -/
theorem c1_lazy_fallback_amended (oracle : Oracle) (s : Session) (ans : String)
    (h : s.interview_language ≠ "") :
    (submitAnswer oracle s ans).session.interview_language = s.interview_language
  ∧ (submitAnswer oracle s ans).session.language_level = s.language_level
  ∧ (submitAnswer oracle s ans).session.explain_language = s.explain_language := by
  by_cases hg : (pyStrip ans).length = 0 <;>
    simp [submitAnswer, hg, fallbackPrefs, h]

/-- Claim C1, witness for the amended theorem at a concrete session. -/
theorem c1_lazy_fallback_witness :
    (submitAnswer (fun _ => "fb") { initSession with interview_language := "German" }
        ("hi")).session.interview_language
      = ({ initSession with interview_language := "German" } : Session).interview_language
  ∧ (submitAnswer (fun _ => "fb") { initSession with interview_language := "German" }
        ("hi")).session.language_level
      = ({ initSession with interview_language := "German" } : Session).language_level
  ∧ (submitAnswer (fun _ => "fb") { initSession with interview_language := "German" }
        ("hi")).session.explain_language
      = ({ initSession with interview_language := "German" } : Session).explain_language :=
  c1_lazy_fallback_amended (fun _ => "fb")
    { initSession with interview_language := "German" } ("hi") (by decide)

/-- Claim C2: for every input string, `parse_setup_answer` agrees with the
algorithm as worded in the spec — tokenize on whitespace after replacing
commas with spaces; the level is the first code in the fixed order
A1,A2,B1,B2,C1,C2 that case-insensitively matches some token (empty if
none); the interview language is the first token verbatim (empty if no
tokens); the explanation language is the last token verbatim exactly when
some token case-insensitively equals yes and at least two tokens exist.
Totality (a possibly-all-empty triple is always returned, with no error
condition) is inherent in the type of the Lean translation. -/
theorem c2_parser_matches_spec_algorithm (text : String) :
    parse_setup_answer text = parse_setup_answer_specModel text := by
  simp only [parse_setup_answer, parse_setup_answer_specModel,
    findLevelLoop_eq_find, contains_map_eq_any]
  cases pyWords text <;> simp

/-- Claim C3: `setup_step` increases by exactly 1 per non-empty submission
while below 4, does not change on empty input or once it equals 4, never
decreases, and (along any sequence of submissions from a state satisfying the
bound) never exceeds 4. -/
theorem c3_setup_step_transitions (s : Session) (inputs : List String)
    (input : String) (h : s.setup_step ≤ 4) :
    (s.setup_step < 4 → input ≠ "" →
      (submitSetup s input).setup_step = s.setup_step + 1)
  ∧ (input = "" → submitSetup s input = s)
  ∧ (s.setup_step = 4 → submitSetup s input = s)
  ∧ s.setup_step ≤ (submitSetup s input).setup_step
  ∧ (runSetup s inputs).setup_step ≤ 4
  ∧ s.setup_step ≤ (runSetup s inputs).setup_step := by
  refine ⟨?_, ?_, ?_, ?_, runSetup_step_le inputs s h, runSetup_step_mono inputs s⟩
  · intro h4 hi
    rw [submitSetup_setup_step]
    simp [h4, hi]
  · intro hi
    simp [submitSetup, hi]
  · intro h4
    simp [submitSetup, h4]
  · rw [submitSetup_setup_step]
    split_ifs <;> omega

/-- Claim C3, witness at the initial session and a concrete input sequence. -/
theorem c3_setup_step_witness :
    (initSession.setup_step < 4 → "x" ≠ "" →
      (submitSetup initSession ("x")).setup_step = initSession.setup_step + 1)
  ∧ ("x" = "" → submitSetup initSession ("x") = initSession)
  ∧ (initSession.setup_step = 4 → submitSetup initSession ("x") = initSession)
  ∧ initSession.setup_step ≤ (submitSetup initSession ("x")).setup_step
  ∧ (runSetup initSession ["German", "", "B1"]).setup_step ≤ 4
  ∧ initSession.setup_step ≤ (runSetup initSession ["German", "", "B1"]).setup_step :=
  c3_setup_step_transitions initSession ["German", "", "B1"] ("x") (by decide)

/-- Claim C4: a whitespace-only (or empty) job description at Start
Interview, and a whitespace-only (or empty) answer at Submit Answer, report
an error, leave the whole session unchanged, and make no outbound model
request. -/
theorem c4_empty_input_validation (oracle1 oracle2 : Oracle) (s : Session)
    (jd ans : String) (hjd : pyStrip jd = "") (hans : pyStrip ans = "") :
    startInterview oracle1 s jd = ⟨s, true, []⟩
  ∧ submitAnswer oracle2 s ans = ⟨s, true, []⟩ := by
  constructor
  · simp [startInterview, hjd]
  · simp [submitAnswer, hans]

/-- Claim C4, witness at whitespace-only inputs. -/
theorem c4_empty_input_witness :
    startInterview (fun _ => "") initSession (" ") = ⟨initSession, true, []⟩
  ∧ submitAnswer (fun _ => "") initSession ("\t") = ⟨initSession, true, []⟩ :=
  c4_empty_input_validation (fun _ => "") (fun _ => "") initSession (" ") ("\t")
    (by decide) (by decide)

/-- Claim C5, counterexample.  The claim says any step-2 text other than a
case-insensitive no is stored in `explain_language` verbatim; the code stores
the stripped text (app.py line 369), so the input with surrounding spaces is
not stored verbatim. -/
theorem c5_verbatim_counterexample :
    (submitSetup { initSession with setup_step := 2 } (" French ")).explain_language
      ≠ " French " := by
  decide

/-- Claim C5, amended: the step-2 and step-3 comparisons and the stored
values use the stripped input — at step 2 an input whose strip lowercases to
no yields an empty `explain_language` and any other non-empty input stores
its stripped text; at step 3 an input whose strip lowercases to skip leaves
`company_website` unchanged and any other non-empty input stores its stripped
text. -/
theorem c5_steps_two_three_amended (s : Session) (input : String) (h : input ≠ "") :
    (s.setup_step = 2 →
      (submitSetup s input).explain_language
        = (if pyLower (pyStrip input) = "no" then "" else pyStrip input))
  ∧ (s.setup_step = 3 →
      (submitSetup s input).company_website
        = (if pyLower (pyStrip input) = "skip" then s.company_website
           else some (pyStrip input))) := by
  constructor
  · intro hs
    by_cases hno : pyLower (pyStrip input) = "no" <;>
      simp [submitSetup, hs, h, hno]
  · intro hs
    by_cases hskip : pyLower (pyStrip input) = "skip" <;>
      simp [submitSetup, hs, h, hskip]

/-- Claim C5, witness for the amended theorem at step 2. -/
theorem c5_steps_two_three_witness :
    (({ initSession with setup_step := 2 } : Session).setup_step = 2 →
      (submitSetup { initSession with setup_step := 2 } ("Bengali")).explain_language
        = (if pyLower (pyStrip ("Bengali")) = "no" then ""
           else pyStrip ("Bengali")))
  ∧ (({ initSession with setup_step := 2 } : Session).setup_step = 3 →
      (submitSetup { initSession with setup_step := 2 } ("Bengali")).company_website
        = (if pyLower (pyStrip ("Bengali")) = "skip"
           then ({ initSession with setup_step := 2 } : Session).company_website
           else some (pyStrip ("Bengali")))) :=
  c5_steps_two_three_amended { initSession with setup_step := 2 } ("Bengali")
    (by decide)

/-- Claim C6: on every successful answer submission the asked-questions list
passed to the next-question request is exactly the questions of the updated
history in chronological order, namely the previous questions followed by the
question just answered (so it is the singleton of the first history entry
after the first round, and grows by one element per round, order preserved);
and the request renders an asked list as a newline-joined bulleted list, with
the literal marker (none) for the empty list. -/
theorem c6_asked_questions (oracle : Oracle) (s : Session) (ans : String)
    (h : pyStrip ans ≠ "") :
    (∃ fb : String,
        (submitAnswer oracle s ans).requests
          = [ feedbackRequest (fallbackPrefs s ans) s.job s.question ans
            , nextQuestionRequest
                { fallbackPrefs s ans with
                    history := s.history ++ [Round.mk s.question ans fb] }
                s.job
                (s.history.map Round.q ++ [s.question]) ])
  ∧ (submitAnswer oracle s ans).session.history.map Round.q
      = s.history.map Round.q ++ [s.question]
  ∧ (s.history = [] →
      (submitAnswer oracle s ans).session.history.map Round.q = [s.question])
  ∧ askedBlock [] = "(none)"
  ∧ (∀ asked : List String, asked ≠ [] →
      askedBlock asked = String.intercalate ("\n") (asked.map (fun q => "- " ++ q))) := by
  have hg : ¬ (pyStrip ans).length = 0 := fun hl => pyStrip_length_ne ans h hl
  refine ⟨⟨generate_feedback oracle (fallbackPrefs s ans) s.job s.question ans, ?_⟩,
    ?_, ?_, rfl, ?_⟩
  · simp [submitAnswer, hg, fallbackPrefs_history, fallbackPrefs_question,
      fallbackPrefs_job]
  · simp [submitAnswer, hg, fallbackPrefs_history, fallbackPrefs_question]
  · intro hh
    simp [submitAnswer, hg, fallbackPrefs_history, fallbackPrefs_question, hh]
  · intro asked hne
    cases asked with
    | nil => exact absurd rfl hne
    | cons a as => rfl

/-- Claim C6, witness at the initial session. -/
theorem c6_asked_questions_witness :
    (∃ fb : String,
        (submitAnswer (fun _ => "next") initSession ("hello")).requests
          = [ feedbackRequest (fallbackPrefs initSession ("hello"))
                initSession.job initSession.question ("hello")
            , nextQuestionRequest
                { fallbackPrefs initSession ("hello") with
                    history := initSession.history
                      ++ [Round.mk initSession.question ("hello") fb] }
                initSession.job
                (initSession.history.map Round.q ++ [initSession.question]) ])
  ∧ (submitAnswer (fun _ => "next") initSession ("hello")).session.history.map Round.q
      = initSession.history.map Round.q ++ [initSession.question]
  ∧ (initSession.history = [] →
      (submitAnswer (fun _ => "next") initSession ("hello")).session.history.map Round.q
        = [initSession.question])
  ∧ askedBlock [] = "(none)"
  ∧ (∀ asked : List String, asked ≠ [] →
      askedBlock asked = String.intercalate ("\n") (asked.map (fun q => "- " ++ q))) :=
  c6_asked_questions (fun _ => "next") initSession ("hello") (by decide)

/-- Claim C7: every successful answer submission appends exactly one
question-answer-feedback entry at the end of the history (append-only,
chronological, length up by one) and overwrites the current question with the
newly generated next question. -/
theorem c7_history_append (oracle : Oracle) (s : Session) (ans : String)
    (h : pyStrip ans ≠ "") :
    (submitAnswer oracle s ans).session.history.length = s.history.length + 1
  ∧ (submitAnswer oracle s ans).session.history.take s.history.length = s.history
  ∧ ∃ fb : String,
      (submitAnswer oracle s ans).session.history
          = s.history ++ [Round.mk s.question ans fb]
      ∧ (submitAnswer oracle s ans).session.question
          = generate_next_question oracle
              { fallbackPrefs s ans with
                  history := s.history ++ [Round.mk s.question ans fb] }
              s.job ((s.history ++ [Round.mk s.question ans fb]).map Round.q) := by
  have hg : ¬ (pyStrip ans).length = 0 := fun hl => pyStrip_length_ne ans h hl
  refine ⟨?_, ?_,
    ⟨generate_feedback oracle (fallbackPrefs s ans) s.job s.question ans, ?_, ?_⟩⟩
  · simp [submitAnswer, hg, fallbackPrefs_history]
  · simp [submitAnswer, hg, fallbackPrefs_history]
  · simp [submitAnswer, hg, fallbackPrefs_history, fallbackPrefs_question,
      fallbackPrefs_job]
  · simp [submitAnswer, hg, fallbackPrefs_history, fallbackPrefs_question,
      fallbackPrefs_job]

/-- Claim C7, witness at the initial session. -/
theorem c7_history_append_witness :
    (submitAnswer (fun _ => "next") initSession ("hello")).session.history.length
      = initSession.history.length + 1
  ∧ (submitAnswer (fun _ => "next") initSession ("hello")).session.history.take
        initSession.history.length = initSession.history
  ∧ ∃ fb : String,
      (submitAnswer (fun _ => "next") initSession ("hello")).session.history
          = initSession.history ++ [Round.mk initSession.question ("hello") fb]
      ∧ (submitAnswer (fun _ => "next") initSession ("hello")).session.question
          = generate_next_question (fun _ => "next")
              { fallbackPrefs initSession ("hello") with
                  history := initSession.history
                    ++ [Round.mk initSession.question ("hello") fb] }
              initSession.job
              ((initSession.history
                  ++ [Round.mk initSession.question ("hello") fb]).map Round.q) :=
  c7_history_append (fun _ => "next") initSession ("hello") (by decide)

/-- Claim C8: the Context Builder is a function of the three preference
fields alone, with each empty field rendered as the literal not set inside
the fixed template, and its output is the first segment of the user-role
content of each of the three outbound requests. -/
theorem c8_context_builder (s : Session) (jd q a : String) (asked : List String) :
    build_language_context s
      = contextTemplate
          (if s.interview_language = "" then "not set" else s.interview_language)
          (if s.language_level = "" then "not set" else s.language_level)
          (if s.explain_language = "" then "not set" else s.explain_language)
  ∧ (∃ r, firstQuestionRequest s jd
        = [⟨"system", firstQuestionSystem⟩, ⟨"user", build_language_context s ++ r⟩])
  ∧ (∃ r, feedbackRequest s jd q a
        = [⟨"system", feedbackSystem⟩, ⟨"user", build_language_context s ++ r⟩])
  ∧ (∃ r, nextQuestionRequest s jd asked
        = [⟨"system", nextQuestionSystem⟩, ⟨"user", build_language_context s ++ r⟩]) :=
  ⟨rfl, ⟨_, rfl⟩, ⟨_, rfl⟩, ⟨_, rfl⟩⟩

/-- Claim C9: the four spec test vectors of `parse_setup_answer`. -/
theorem c9_parser_examples :
    parse_setup_answer ("German, B1, yes Bengali") = ("German", "B1", "Bengali")
  ∧ parse_setup_answer ("English B2 no") = ("English", "B2", "")
  ∧ parse_setup_answer ("Bangla B1 yes English") = ("Bangla", "B1", "English")
  ∧ parse_setup_answer ("") = ("", "", "") := by
  refine ⟨?_, ?_, ?_, ?_⟩ <;> decide

/-- Claim C10: two sessions that agree on everything except the stored
company website are indistinguishable downstream — the Context Builder output,
all three request builders, the setup handler, and both interview handlers
(resulting sessions up to the website field, error flags, and outbound
requests) coincide, so `company_website` is never read. -/
theorem c10_company_website_noninterference (s t : Session)
    (h : agreeExceptWebsite s t) :
    build_language_context s = build_language_context t
  ∧ (∀ jd, firstQuestionRequest s jd = firstQuestionRequest t jd)
  ∧ (∀ jd q a, feedbackRequest s jd q a = feedbackRequest t jd q a)
  ∧ (∀ jd asked, nextQuestionRequest s jd asked = nextQuestionRequest t jd asked)
  ∧ (∀ input, agreeExceptWebsite (submitSetup s input) (submitSetup t input))
  ∧ (∀ oracle jd,
        agreeExceptWebsite (startInterview oracle s jd).session
            (startInterview oracle t jd).session
      ∧ (startInterview oracle s jd).errored = (startInterview oracle t jd).errored
      ∧ (startInterview oracle s jd).requests = (startInterview oracle t jd).requests)
  ∧ (∀ oracle ans,
        agreeExceptWebsite (submitAnswer oracle s ans).session
            (submitAnswer oracle t ans).session
      ∧ (submitAnswer oracle s ans).errored = (submitAnswer oracle t ans).errored
      ∧ (submitAnswer oracle s ans).requests = (submitAnswer oracle t ans).requests) := by
  obtain ⟨sst, sjb, sq, shist, sil, slv, sel, sss, ssc, scw⟩ := s
  obtain ⟨tst, tjb, tq, thist, til, tlv, tel, tss, tsc, tcw⟩ := t
  obtain ⟨h1, h2, h3, h4, h5, h6, h7, h8, h9⟩ := h
  simp only [] at h1 h2 h3 h4 h5 h6 h7 h8 h9
  subst h1 h2 h3 h4 h5 h6 h7 h8 h9
  refine ⟨rfl, fun jd => rfl, fun jd q a => rfl, fun jd asked => rfl, ?_, ?_, ?_⟩
  · intro input
    simp only [submitSetup, agreeExceptWebsite]
    split_ifs <;> simp
  · intro oracle jd
    simp only [startInterview, agreeExceptWebsite]
    split_ifs <;>
      simp [generate_first_question, firstQuestionRequest, build_language_context]
  · intro oracle ans
    simp only [submitAnswer, fallbackPrefs, applyParsedPrefs, agreeExceptWebsite,
      generate_feedback, generate_next_question, feedbackRequest, nextQuestionRequest,
      build_language_context]
    split_ifs <;> simp

/-- Claim C10, witness: the initial session against the same session with a
website recorded. -/
theorem c10_company_website_witness :
    build_language_context initSession
      = build_language_context
          { initSession with company_website := some ("https://example.com") }
  ∧ (∀ jd, firstQuestionRequest initSession jd
        = firstQuestionRequest
            { initSession with company_website := some ("https://example.com") } jd)
  ∧ (∀ jd q a, feedbackRequest initSession jd q a
        = feedbackRequest
            { initSession with company_website := some ("https://example.com") } jd q a)
  ∧ (∀ jd asked, nextQuestionRequest initSession jd asked
        = nextQuestionRequest
            { initSession with company_website := some ("https://example.com") } jd asked)
  ∧ (∀ input, agreeExceptWebsite (submitSetup initSession input)
        (submitSetup
          { initSession with company_website := some ("https://example.com") } input))
  ∧ (∀ oracle jd,
        agreeExceptWebsite (startInterview oracle initSession jd).session
            (startInterview oracle
              { initSession with company_website := some ("https://example.com") }
              jd).session
      ∧ (startInterview oracle initSession jd).errored
          = (startInterview oracle
              { initSession with company_website := some ("https://example.com") }
              jd).errored
      ∧ (startInterview oracle initSession jd).requests
          = (startInterview oracle
              { initSession with company_website := some ("https://example.com") }
              jd).requests)
  ∧ (∀ oracle ans,
        agreeExceptWebsite (submitAnswer oracle initSession ans).session
            (submitAnswer oracle
              { initSession with company_website := some ("https://example.com") }
              ans).session
      ∧ (submitAnswer oracle initSession ans).errored
          = (submitAnswer oracle
              { initSession with company_website := some ("https://example.com") }
              ans).errored
      ∧ (submitAnswer oracle initSession ans).requests
          = (submitAnswer oracle
              { initSession with company_website := some ("https://example.com") }
              ans).requests) :=
  c10_company_website_noninterference initSession
    { initSession with company_website := some ("https://example.com") }
    ⟨rfl, rfl, rfl, rfl, rfl, rfl, rfl, rfl, rfl⟩

end InterviewApp
